import Mathlib

/-!
Shallow embedding of `torch_exid` (`src/torch_exid/exid.py`):
`ExtendedIterableDataset`, a streaming wrapper adding offset skipping,
count limiting, per-item transforms and bounded-window shuffling to a
user-supplied generator.

Modelling choices:
* The subclass generator (`generator`, an Item Source) is a function
  `Nat → Pull α`: the outcome of the k-th `next()` call of one run.
  `Pull.item skip x` is a produced value `x`, with `skip = true` when the
  source raised the skip side-channel flag while producing it;
  `Pull.stop` is `StopIteration` (exhaustion); `Pull.fail` is any other
  exception.  A fixed function models a deterministic source that is
  re-invoked fresh at the start of every traversal.
* Python generators are modelled by fuel-indexed total functions that
  return `none` when the fuel is insufficient, and otherwise the complete
  data of one traversal: the list of produced outputs, the final run
  state, the number of `next()` calls made on the source, and whether the
  run ended by propagating a source failure.
* `Random(seed).shuffle(buffer)` constructs a fresh Mersenne-Twister
  generator from `seed` and shuffles in place; the draws it consumes
  depend only on `len(buffer)`, so the arrangement it applies is a
  permutation determined by `(seed, len(buffer))`.  The embedding is
  parametric in that permutation table `P : Nat → Nat → List Nat`;
  `pyPerm` pins the concrete values for the `(seed, length)` pairs
  exercised by the tests of the repository (`tests/test_basics.py`).
-/

namespace TorchExid

/-- Outcome of one `next()` call on the Item Source: an item (with the
skip side-channel flag it raised while producing it), exhaustion
(`StopIteration`), or a terminal failure (any other exception). -/
inductive Pull (α : Type) where
  | item (skip : Bool) (x : α)
  | stop
  | fail
deriving DecidableEq

/-- The immutable configuration of `ExtendedIterableDataset.__init__`,
with the Python defaults. -/
structure Cfg (α : Type) where
  shuffle_buffer : Int := 1
  shuffle_seed : Nat := 0
  offset : Int := 0
  limit : Int := -1
  transforms : List (α → α) := []

/-- `limit_allows_one_more` (exid.py lines 79-93): true whenever
`limit < 0`, otherwise true exactly while `counter < limit + offset`. -/
def limit_allows_one_more (limit offset : Int) (counter : Nat) : Bool :=
  if limit < 0 then true else (counter : Int) < limit + offset

/-- `transform_x` (exid.py lines 95-112): thread the item through the
transforms in order. -/
def transform_x (transforms : List (α → α)) (x : α) : α :=
  transforms.foldl (fun y t => t y) x

/-- Rearrange `l` by the index list `p`: entry `k` of the result is
`l[p[k]]` (indices out of range are dropped). -/
def applyPerm (p : List Nat) (l : List α) : List α :=
  p.filterMap fun j => l.get? j

/-- The index permutation that `Random(seed).shuffle` applies to a list
of the given length.  A fresh generator is built from `seed` each time,
and the draws consumed depend only on the length, so the arrangement is
a function of `(seed, length)`.  The concrete values are pinned from the
test vectors of the repository (`tests/test_basics.py`); other `(seed,
length)` pairs, which no concrete claim touches, are left as the
identity. -/
def pyPerm (seed n : Nat) : List Nat :=
  if seed = 42 ∧ n = 2 then [1, 0]
  else if seed = 42 ∧ n = 3 then [1, 0, 2]
  else if seed = 42 ∧ n = 5 then [3, 1, 2, 4, 0]
  else if seed = 43 ∧ n = 2 then [1, 0]
  else if seed = 43 ∧ n = 3 then [2, 1, 0]
  else if seed = 43 ∧ n = 5 then [1, 4, 3, 2, 0]
  else List.range n

/-- `flush_buffer` (exid.py lines 114-129): shuffle the buffer with a
fresh generator seeded with `seed` and yield its entire content.  The
permutation table `P` stands for the seeded shuffle; the arrangement
applied depends only on `(seed, buffer.length)`. -/
def flush_buffer (P : Nat → Nat → List Nat) (seed : Nat) (buffer : List α) : List α :=
  applyPerm (P seed buffer.length) buffer

/-- `generator_with_conditions` (exid.py lines 131-165) run to
completion from pull index `i` and counter `c`.  Returns `none` when the
fuel is insufficient, otherwise `some (ys, c', i', failed)`: the
transformed items yielded, the counter after the run, the next unpulled
source index (`i' - i` is the number of `next()` calls made), and
whether the run ended by propagating a source failure.

The skip side-channel (`skip_next`, exercised by `tests/test_skip.py`
but absent from the copy of `exid.py` under `src/`) is modelled from the
spec: a flag the source raises while producing one item, checked
immediately after the pull, causing the item to be discarded before the
offset filter — not transformed, not yielded, and leaving `counter`
unchanged — while the source still advances. -/
def generator_with_conditions (offset limit : Int) (transforms : List (α → α))
    (source : Nat → Pull α) :
    Nat → Nat → Nat → Option (List α × Nat × Nat × Bool)
  | 0, _, _ => none
  | fuel + 1, i, c =>
    if limit_allows_one_more limit offset c then
      match source i with
      | .stop => some ([], c, i + 1, false)
      | .fail => some ([], c, i + 1, true)
      | .item skip x =>
        if skip then
          generator_with_conditions offset limit transforms source fuel (i + 1) c
        else if (c : Int) < offset then
          generator_with_conditions offset limit transforms source fuel (i + 1) (c + 1)
        else
          (generator_with_conditions offset limit transforms source fuel (i + 1) (c + 1)).map
            fun r => (transform_x transforms x :: r.1, r.2)
    else
      some ([], c, i, false)

/-- One iteration of the buffered loop of `generator_with_buffer`
(exid.py lines 180-184): append the item to the buffer; once the buffer
length reaches `shuffle_buffer`, emit the whole shuffled buffer and
clear it, in one step.  State is `(outputs so far, buffer)`. -/
def buffer_step (P : Nat → Nat → List Nat) (seed : Nat) (shuffle_buffer : Int)
    (st : List α × List α) (x : α) : List α × List α :=
  if shuffle_buffer ≤ ((st.2 ++ [x]).length : Int) then
    (st.1 ++ flush_buffer P seed (st.2 ++ [x]), [])
  else
    (st.1, st.2 ++ [x])

/-- End-of-run drain (exid.py lines 186-187): flush the final partial
buffer if it is non-empty. -/
def final_flush (P : Nat → Nat → List Nat) (seed : Nat) (r : List α × List α) : List α :=
  if r.2.isEmpty then r.1 else r.1 ++ flush_buffer P seed r.2

/-- `generator_with_buffer` (exid.py lines 167-195), which `__iter__`
returns: one full consumer traversal from run state `st = (counter,
buffer)`.  Returns `none` when the fuel is insufficient, otherwise
`some (outputs, final run state, number of source pulls, failed)`.
On normal completion the run state is reset to `(0, [])` (lines
193-195); a propagated source failure skips that reset, leaving the
counter and the unflushed buffer as they were. -/
def generator_with_buffer (P : Nat → Nat → List Nat) (cfg : Cfg α)
    (source : Nat → Pull α) (fuel : Nat) (st : Nat × List α) :
    Option (List α × (Nat × List α) × Nat × Bool) :=
  match generator_with_conditions cfg.offset cfg.limit cfg.transforms source fuel 0 st.1 with
  | none => none
  | some (ys, c, pulls, failed) =>
    if 1 < cfg.shuffle_buffer then
      if failed then
        some ((ys.foldl (buffer_step P cfg.shuffle_seed cfg.shuffle_buffer) ([], st.2)).1,
          (c, (ys.foldl (buffer_step P cfg.shuffle_seed cfg.shuffle_buffer) ([], st.2)).2),
          pulls, true)
      else
        some (final_flush P cfg.shuffle_seed
            (ys.foldl (buffer_step P cfg.shuffle_seed cfg.shuffle_buffer) ([], st.2)),
          (0, []), pulls, false)
    else
      if failed then some (ys, (c, st.2), pulls, true)
      else some (ys, (0, []), pulls, false)

/-- The `IntegersDataset` source of `tests/test_basics.py`: the naturals
0, 1, 2, …, never skipping, never stopping. -/
def naturalsSource : Nat → Pull Nat := fun n => .item false n

/-- The `EvensDataset` source of `tests/test_skip.py`: yields 0, 1, 2, …
and raises the skip flag for every odd value before yielding it. -/
def evensSource : Nat → Pull Nat := fun n => .item (n % 2 == 1) n

/-- A source that produces 0, 1 and then raises a failure. -/
def failAfterTwoSource : Nat → Pull Nat := fun n =>
  if n < 2 then .item false n else .fail

/-- A source that is exhausted from the start. -/
def emptySource : Nat → Pull Nat := fun _ => .stop

/-- Python truthiness of the `transforms` argument: `not transforms` is
true when it is `None` or the empty list. -/
def transformsAbsent : Option (List (α → α)) → Bool
  | none => true
  | some [] => true
  | some (_ :: _) => false

/-- `__init__` (exid.py lines 30-66): fails with `ValueError` when
`transforms_required` is set and `transforms` is `None` or empty,
otherwise builds the configuration.  `entropy` stands for the value
`Random().randint(0, 999331)` drawn once when no seed is supplied. -/
def datasetInit (shuffle_buffer : Int) (shuffle_seed : Option Nat) (offset limit : Int)
    (transforms : Option (List (α → α))) ( transforms_required : Bool) (entropy : Nat) :
    Except String (Cfg α) :=
  if transforms_required && transformsAbsent transforms then
    Except.error
      "ExtendedIterableDataset requires transforms in order to avoid bugs. Please read the comment above"
  else
    Except.ok
      { shuffle_buffer := shuffle_buffer
        shuffle_seed := shuffle_seed.getD entropy
        offset := offset
        limit := limit
        transforms := transforms.getD [] }

section StepLemmas

variable {α : Type} (offset limit : Int) (transforms : List (α → α)) (source : Nat → Pull α)

/-- When the gate is closed, one loop iteration ends the run with no
further pull. -/
lemma genConds_gate_closed {c : Nat} (fuel i : Nat)
    (h : limit_allows_one_more limit offset c = false) :
    generator_with_conditions offset limit transforms source (fuel + 1) i c =
      some ([], c, i, false) := by
  simp [generator_with_conditions, h]

/-- A pull whose skip flag is raised is discarded: nothing is yielded,
the counter is unchanged, and the source advances. -/
lemma genConds_skip {c : Nat} (fuel i : Nat) {x : α}
    (hgate : limit_allows_one_more limit offset c = true)
    (hsrc : source i = Pull.item true x) :
    generator_with_conditions offset limit transforms source (fuel + 1) i c =
      generator_with_conditions offset limit transforms source fuel (i + 1) c := by
  simp [generator_with_conditions, hgate, hsrc]

/-- While `counter < offset`, a kept pull is discarded and the counter
is incremented. -/
lemma genConds_offset_skip {c : Nat} (fuel i : Nat) {x : α}
    (hgate : limit_allows_one_more limit offset c = true)
    (hsrc : source i = Pull.item false x)
    (hlt : (c : Int) < offset) :
    generator_with_conditions offset limit transforms source (fuel + 1) i c =
      generator_with_conditions offset limit transforms source fuel (i + 1) (c + 1) := by
  simp [generator_with_conditions, hgate, hsrc, hlt]

/-- Past the offset, a kept pull is transformed and yielded, and the
counter is incremented. -/
lemma genConds_yield {c : Nat} (fuel i : Nat) {x : α}
    (hgate : limit_allows_one_more limit offset c = true)
    (hsrc : source i = Pull.item false x)
    (hge : ¬ (c : Int) < offset) :
    generator_with_conditions offset limit transforms source (fuel + 1) i c =
      (generator_with_conditions offset limit transforms source fuel (i + 1) (c + 1)).map
        fun r => (transform_x transforms x :: r.1, r.2) := by
  simp [generator_with_conditions, hgate, hsrc, hge]

/-- Exhaustion of the source ends the run normally. -/
lemma genConds_stop {c : Nat} (fuel i : Nat)
    (hgate : limit_allows_one_more limit offset c = true)
    (hsrc : source i = Pull.stop) :
    generator_with_conditions offset limit transforms source (fuel + 1) i c =
      some ([], c, i + 1, false) := by
  simp [generator_with_conditions, hgate, hsrc]

/-- A source failure ends the run with the failure flag set. -/
lemma genConds_fail {c : Nat} (fuel i : Nat)
    (hgate : limit_allows_one_more limit offset c = true)
    (hsrc : source i = Pull.fail) :
    generator_with_conditions offset limit transforms source (fuel + 1) i c =
      some ([], c, i + 1, true) := by
  simp [generator_with_conditions, hgate, hsrc]

end StepLemmas

section BufferLemmas

variable {α : Type} (P : Nat → Nat → List Nat)

/-- Insufficient fuel propagates. -/
lemma generator_with_buffer_none (cfg : Cfg α) (source : Nat → Pull α)
    (fuel : Nat) (st : Nat × List α)
    (hg : generator_with_conditions cfg.offset cfg.limit cfg.transforms source fuel 0 st.1 =
      none) :
    generator_with_buffer P cfg source fuel st = none := by
  unfold generator_with_buffer
  rw [hg]

/-- On a normally completed inner run the traversal flushes what is
pending and resets the run state. -/
lemma generator_with_buffer_normal (cfg : Cfg α) (source : Nat → Pull α)
    (fuel : Nat) (st : Nat × List α) {ys : List α} {c pulls : Nat}
    (hg : generator_with_conditions cfg.offset cfg.limit cfg.transforms source fuel 0 st.1 =
      some (ys, c, pulls, false)) :
    generator_with_buffer P cfg source fuel st =
      if 1 < cfg.shuffle_buffer then
        some (final_flush P cfg.shuffle_seed
            (ys.foldl (buffer_step P cfg.shuffle_seed cfg.shuffle_buffer) ([], st.2)),
          (0, []), pulls, false)
      else
        some (ys, (0, []), pulls, false) := by
  unfold generator_with_buffer
  rw [hg]
  by_cases h : 1 < cfg.shuffle_buffer <;> simp [h]

/-- On a failed inner run the traversal stops without the final flush
and without the reset: the counter at the failure and the pending
buffer are kept. -/
lemma generator_with_buffer_failed (cfg : Cfg α) (source : Nat → Pull α)
    (fuel : Nat) (st : Nat × List α) {ys : List α} {c pulls : Nat}
    (hg : generator_with_conditions cfg.offset cfg.limit cfg.transforms source fuel 0 st.1 =
      some (ys, c, pulls, true)) :
    generator_with_buffer P cfg source fuel st =
      if 1 < cfg.shuffle_buffer then
        some ((ys.foldl (buffer_step P cfg.shuffle_seed cfg.shuffle_buffer) ([], st.2)).1,
          (c, (ys.foldl (buffer_step P cfg.shuffle_seed cfg.shuffle_buffer) ([], st.2)).2),
          pulls, true)
      else
        some (ys, (c, st.2), pulls, true) := by
  unfold generator_with_buffer
  rw [hg]
  by_cases h : 1 < cfg.shuffle_buffer <;> simp [h]

end BufferLemmas

section PermLemmas

variable {α : Type}

lemma filterMap_get_range (l : List α) :
    (List.range l.length).filterMap (fun j => l.get? j) = l := by
  induction l with
  | nil => simp
  | cons a t ih =>
    rw [List.length_cons, List.range_succ_eq_map, List.filterMap_cons,
      List.filterMap_map]
    have h : ((fun j => (a :: t).get? j) ∘ Nat.succ) = fun j => t.get? j := by
      funext j
      simp
    simp only [List.get?_cons_zero, h, ih]

/-- Rearranging by an index list that is a permutation of the valid
indices permutes the list. -/
lemma applyPerm_perm {p : List Nat} {l : List α}
    (hp : p.Perm (List.range l.length)) : (applyPerm p l).Perm l := by
  have h := hp.filterMap (fun j => l.get? j)
  rw [filterMap_get_range] at h
  exact h

/-- Every entry of the pinned table is a permutation of the valid
indices. -/
lemma pyPerm_perm (s n : Nat) : (pyPerm s n).Perm (List.range n) := by
  unfold pyPerm
  split
  next h => rw [h.2]; decide
  next =>
    split
    next h => rw [h.2]; decide
    next =>
      split
      next h => rw [h.2]; decide
      next =>
        split
        next h => rw [h.2]; decide
        next =>
          split
          next h => rw [h.2]; decide
          next =>
            split
            next h => rw [h.2]; decide
            next => exact List.Perm.refl _

/-- A flush emits a permutation of the buffer. -/
lemma flush_buffer_perm (P : Nat → Nat → List Nat) (seed : Nat)
    (hP : ∀ n, (P seed n).Perm (List.range n)) (b : List α) :
    (flush_buffer P seed b).Perm b :=
  applyPerm_perm (hP b.length)

/-- When the appended buffer reaches the threshold, one step emits the
whole shuffled buffer and clears it. -/
lemma buffer_step_flush (P : Nat → Nat → List Nat) (seed : Nat) (sb : Int)
    (st : List α × List α) (x : α)
    (hf : sb ≤ ((st.2 ++ [x]).length : Int)) :
    buffer_step P seed sb st x = (st.1 ++ flush_buffer P seed (st.2 ++ [x]), []) := by
  unfold buffer_step
  rw [if_pos hf]

/-- Below the threshold, one step only appends to the buffer. -/
lemma buffer_step_append (P : Nat → Nat → List Nat) (seed : Nat) (sb : Int)
    (st : List α × List α) (x : α)
    (hf : ¬ sb ≤ ((st.2 ++ [x]).length : Int)) :
    buffer_step P seed sb st x = (st.1, st.2 ++ [x]) := by
  unfold buffer_step
  rw [if_neg hf]

/-- The buffered loop loses nothing: across any number of flushes, the
emitted output together with the pending buffer is a permutation of the
starting output, starting buffer and all consumed items. -/
lemma buffer_fold_perm (P : Nat → Nat → List Nat) (seed : Nat) (sb : Int)
    (hP : ∀ n, (P seed n).Perm (List.range n)) :
    ∀ (ys out buf : List α),
      ((ys.foldl (buffer_step P seed sb) (out, buf)).1 ++
        (ys.foldl (buffer_step P seed sb) (out, buf)).2).Perm (out ++ buf ++ ys) := by
  intro ys
  induction ys with
  | nil => intro out buf; simp
  | cons x t ih =>
    intro out buf
    rw [List.foldl_cons]
    by_cases hf : sb ≤ (((out, buf).2 ++ [x]).length : Int)
    · rw [buffer_step_flush P seed sb (out, buf) x hf]
      refine (ih _ _).trans ?_
      have hfl : (flush_buffer P seed (buf ++ [x])).Perm (buf ++ [x]) :=
        flush_buffer_perm P seed hP _
      simpa [List.append_assoc] using (hfl.append_right t).append_left out
    · rw [buffer_step_append P seed sb (out, buf) x hf]
      simpa [List.append_assoc] using ih out (buf ++ [x])

/-- The end-of-run drain emits exactly the pending items on top of what
was already emitted, up to the shuffle permutation. -/
lemma final_flush_perm (P : Nat → Nat → List Nat) (seed : Nat)
    (hP : ∀ n, (P seed n).Perm (List.range n)) (r : List α × List α) :
    (final_flush P seed r).Perm (r.1 ++ r.2) := by
  unfold final_flush
  split
  next h =>
    rw [List.isEmpty_iff] at h
    rw [h]
    simp
  next h =>
    exact (flush_buffer_perm P seed hP r.2).append_left r.1

end PermLemmas

section LimitZeroLemmas

variable {α : Type} (offset : Int) (transforms : List (α → α)) (source : Nat → Pull α)

/-- With `limit = 0` the gate `counter < limit + offset` never lets a
post-offset item through, so the inner run yields nothing. -/
lemma genConds_limit_zero_no_yield :
    ∀ (fuel i c : Nat) {ys : List α} {c2 i2 : Nat} {fl : Bool},
      generator_with_conditions offset 0 transforms source fuel i c =
        some (ys, c2, i2, fl) → ys = [] := by
  intro fuel
  induction fuel with
  | zero => intro i c ys c2 i2 fl h; exact absurd h (by simp [generator_with_conditions])
  | succ f ih =>
    intro i c ys c2 i2 fl h
    by_cases hg : limit_allows_one_more 0 offset c = true
    · cases hsrc : source i with
      | item skip x =>
        cases skip with
        | true =>
          rw [genConds_skip offset 0 transforms source f i hg hsrc] at h
          exact ih _ _ h
        | false =>
          have hc : (c : Int) < offset := by
            have := hg
            simp [limit_allows_one_more] at this
            omega
          rw [genConds_offset_skip offset 0 transforms source f i hg hsrc hc] at h
          exact ih _ _ h
      | stop =>
        rw [genConds_stop offset 0 transforms source f i hg hsrc] at h
        simp only [Option.some.injEq, Prod.mk.injEq] at h
        exact h.1.symm
      | fail =>
        rw [genConds_fail offset 0 transforms source f i hg hsrc] at h
        simp only [Option.some.injEq, Prod.mk.injEq] at h
        exact h.1.symm
    · rw [genConds_gate_closed offset 0 transforms source f i
        (Bool.not_eq_true _ ▸ hg)] at h
      simp only [Option.some.injEq, Prod.mk.injEq] at h
      exact h.1.symm

/-- With `limit = 0`, while the source keeps producing unskipped items
the run makes exactly `offset` pulls, discarding each, and stops. -/
lemma genConds_limit_zero_pulls :
    ∀ (m fuel i c : Nat),
      offset = ((c + m : Nat) : Int) →
      (∀ k, k < m → ∃ x, source (i + k) = Pull.item false x) →
      m < fuel →
      generator_with_conditions offset 0 transforms source fuel i c =
        some ([], c + m, i + m, false) := by
  intro m
  induction m with
  | zero =>
    intro fuel i c hoff _ hfuel
    obtain ⟨f, rfl⟩ : ∃ f, fuel = f + 1 := ⟨fuel - 1, by omega⟩
    have hg : limit_allows_one_more 0 offset c = false := by
      simp [limit_allows_one_more, hoff]
    rw [genConds_gate_closed offset 0 transforms source f i hg]
    simp
  | succ m ih =>
    intro fuel i c hoff hsk hfuel
    obtain ⟨f, rfl⟩ : ∃ f, fuel = f + 1 := ⟨fuel - 1, by omega⟩
    have hg : limit_allows_one_more 0 offset c = true := by
      simp [limit_allows_one_more, hoff]
    obtain ⟨x, hx⟩ := hsk 0 (by omega)
    rw [show i + 0 = i by omega] at hx
    have hc : (c : Int) < offset := by rw [hoff]; push_cast; omega
    rw [genConds_offset_skip offset 0 transforms source f i hg hx hc]
    have hoff2 : offset = (((c + 1) + m : Nat) : Int) := by
      rw [hoff]; congr 1; omega
    have hsk2 : ∀ k, k < m → ∃ y, source ((i + 1) + k) = Pull.item false y := by
      intro k hk
      obtain ⟨y, hy⟩ := hsk (k + 1) (by omega)
      exact ⟨y, by rw [show i + 1 + k = i + (k + 1) by omega]; exact hy⟩
    rw [ih f (i + 1) (c + 1) hoff2 hsk2 (by omega)]
    have e1 : c + 1 + m = c + (m + 1) := by omega
    have e2 : i + 1 + m = i + (m + 1) := by omega
    rw [e1, e2]

end LimitZeroLemmas

/-- C1: with a fixed configuration and a deterministic source, a
complete traversal run to exhaustion ends with the run state reset to
`(0, [])`, so a second complete traversal yields the identical ordered
output; in particular `limit = 3` over the naturals yields `[0, 1, 2]`
on both the first and the second traversal. -/
theorem idempotent_restart :
    (∀ (α : Type) (P : Nat → Nat → List Nat) (cfg : Cfg α) (source : Nat → Pull α)
        (fuel : Nat) (out : List α) (st : Nat × List α) (pulls : Nat),
        generator_with_buffer P cfg source fuel (0, []) = some (out, st, pulls, false) →
        st = (0, []) ∧
        generator_with_buffer P cfg source fuel st = some (out, st, pulls, false)) ∧
    generator_with_buffer pyPerm { limit := 3 } naturalsSource 10 (0, []) =
      some ([0, 1, 2], (0, []), 3, false) := by
  constructor
  · intro α P cfg source fuel out st pulls h
    have hst : st = (0, []) := by
      cases hg : generator_with_conditions cfg.offset cfg.limit cfg.transforms source
          fuel 0 0 with
      | none =>
        rw [generator_with_buffer_none P cfg source fuel (0, []) hg] at h
        exact absurd h (by simp)
      | some r =>
        obtain ⟨ys, c, p, fl⟩ := r
        cases fl with
        | true =>
          rw [generator_with_buffer_failed P cfg source fuel (0, []) hg] at h
          by_cases hsb : 1 < cfg.shuffle_buffer <;> simp [hsb] at h
        | false =>
          rw [generator_with_buffer_normal P cfg source fuel (0, []) hg] at h
          by_cases hsb : 1 < cfg.shuffle_buffer <;>
            simp only [hsb, if_true, if_false, Option.some.injEq, Prod.mk.injEq,
              reduceIte] at h <;>
            exact h.2.1.symm
    exact ⟨hst, hst ▸ h⟩
  · decide

/-- C1 witness: the concrete `limit = 3` pipeline over the naturals ends
its first traversal in the reset state and repeats `[0, 1, 2]`. -/
theorem idempotent_restart_instance :
    (0, ([] : List Nat)) = (0, []) ∧
    generator_with_buffer pyPerm { limit := 3 } naturalsSource 10 (0, []) =
      some ([0, 1, 2], (0, []), 3, false) :=
  idempotent_restart.1 Nat pyPerm { limit := 3 } naturalsSource 10 [0, 1, 2] (0, []) 3
    (by decide)

/-- C4: `limit_allows_one_more` is true whenever `limit < 0`, and
otherwise exactly when `counter < limit + offset`; the loop checks this
gate before each pull and, the moment it is false, ends the run with no
further pull. -/
theorem limit_gate_spec :
    (∀ (limit offset : Int) (counter : Nat),
        limit_allows_one_more limit offset counter = true ↔
          (limit < 0 ∨ (counter : Int) < limit + offset)) ∧
    (∀ (α : Type) (offset limit : Int) (transforms : List (α → α))
        (source : Nat → Pull α) (fuel i c : Nat),
        limit_allows_one_more limit offset c = false →
        generator_with_conditions offset limit transforms source (fuel + 1) i c =
          some ([], c, i, false)) := by
  constructor
  · intro limit offset counter
    by_cases h : limit < 0 <;> simp [limit_allows_one_more, h]
  · intro α offset limit transforms source fuel i c h
    exact genConds_gate_closed offset limit transforms source fuel i h

/-- C4 witness: at `offset = 0`, `limit = 3`, `counter = 3` the gate is
closed and one more loop iteration ends the run without pulling. -/
theorem limit_gate_spec_instance :
    generator_with_conditions 0 3 ([] : List (Nat → Nat)) naturalsSource 5 2 3 =
      some ([], 3, 2, false) :=
  limit_gate_spec.2 Nat 0 3 [] naturalsSource 4 2 3 (by decide)

/-- C5: while `counter < offset` a pulled item is discarded untransformed
and unbuffered and the shared counter advances by one; concretely,
`offset = 5`, `limit = 2` over the naturals yields `[5, 6]`, ends in the
reset state, and therefore repeats `[5, 6]` on a second traversal. -/
theorem offset_filter_spec :
    (∀ (α : Type) (offset limit : Int) (transforms : List (α → α))
        (source : Nat → Pull α) (fuel i c : Nat) (x : α),
        limit_allows_one_more limit offset c = true →
        source i = Pull.item false x →
        (c : Int) < offset →
        generator_with_conditions offset limit transforms source (fuel + 1) i c =
          generator_with_conditions offset limit transforms source fuel (i + 1) (c + 1)) ∧
    generator_with_buffer pyPerm { offset := 5, limit := 2 } naturalsSource 20 (0, []) =
      some ([5, 6], (0, []), 7, false) := by
  constructor
  · intro α offset limit transforms source fuel i c x hgate hsrc hlt
    exact genConds_offset_skip offset limit transforms source fuel i hgate hsrc hlt
  · decide

/-- C5 witness: the first offset step of the `offset = 5`, `limit = 2`
pipeline discards the pull and advances the counter. -/
theorem offset_filter_spec_instance :
    generator_with_conditions 5 2 ([] : List (Nat → Nat)) naturalsSource 8 0 0 =
      generator_with_conditions 5 2 ([] : List (Nat → Nat)) naturalsSource 7 1 1 :=
  offset_filter_spec.1 Nat 5 2 [] naturalsSource 7 0 0 0 (by decide) rfl (by decide)

/-- C3: a pull whose skip flag is raised is discarded before the offset
filter — not offset-counted, not transformed, not buffered, not
yielded, the counter unchanged — while the source advances; the
even-keeping source (skipping every odd value) with `limit = 5` yields
`[0, 2, 4, 6, 8]`, with `offset = 3` yields `[6, 8, 10, 12, 14]`, and
with `shuffle_buffer = 3`, `shuffle_seed = 42` yields `[2, 0, 4, 8, 6]`. -/
theorem skip_side_channel :
    (∀ (α : Type) (offset limit : Int) (transforms : List (α → α))
        (source : Nat → Pull α) (fuel i c : Nat) (x : α),
        limit_allows_one_more limit offset c = true →
        source i = Pull.item true x →
        generator_with_conditions offset limit transforms source (fuel + 1) i c =
          generator_with_conditions offset limit transforms source fuel (i + 1) c) ∧
    generator_with_buffer pyPerm { limit := 5 } evensSource 30 (0, []) =
      some ([0, 2, 4, 6, 8], (0, []), 9, false) ∧
    generator_with_buffer pyPerm { limit := 5, offset := 3 } evensSource 40 (0, []) =
      some ([6, 8, 10, 12, 14], (0, []), 15, false) ∧
    generator_with_buffer pyPerm { limit := 5, shuffle_buffer := 3, shuffle_seed := 42 }
        evensSource 30 (0, []) =
      some ([2, 0, 4, 8, 6], (0, []), 9, false) := by
  refine ⟨?_, by decide, by decide, by decide⟩
  intro α offset limit transforms source fuel i c x hgate hsrc
  exact genConds_skip offset limit transforms source fuel i hgate hsrc

/-- C3 witness: the pull of the odd value 1 is discarded with the
counter unchanged while the source advances. -/
theorem skip_side_channel_instance :
    generator_with_conditions 0 5 ([] : List (Nat → Nat)) evensSource 29 1 1 =
      generator_with_conditions 0 5 ([] : List (Nat → Nat)) evensSource 28 2 1 :=
  skip_side_channel.1 Nat 0 5 [] evensSource 28 1 1 1 (by decide) rfl

/-- C6: with `shuffle_buffer > 1`, a normally completed run flushes the
final partial buffer with the same seeding rule (`final_flush` applies
`flush_buffer`) and emits every kept item exactly once: the traversal
output is a permutation of the items the inner run yielded. -/
theorem partial_flush_no_loss :
    ∀ (α : Type) (P : Nat → Nat → List Nat) (cfg : Cfg α) (source : Nat → Pull α)
      (fuel : Nat) (ys : List α) (c pulls : Nat),
      (∀ n, (P cfg.shuffle_seed n).Perm (List.range n)) →
      1 < cfg.shuffle_buffer →
      generator_with_conditions cfg.offset cfg.limit cfg.transforms source fuel 0 0 =
        some (ys, c, pulls, false) →
      generator_with_buffer P cfg source fuel (0, []) =
        some (final_flush P cfg.shuffle_seed
            (ys.foldl (buffer_step P cfg.shuffle_seed cfg.shuffle_buffer) ([], [])),
          (0, []), pulls, false) ∧
      (final_flush P cfg.shuffle_seed
          (ys.foldl (buffer_step P cfg.shuffle_seed cfg.shuffle_buffer) ([], []))).Perm
        ys := by
  intro α P cfg source fuel ys c pulls hP hsb hg
  constructor
  · rw [generator_with_buffer_normal P cfg source fuel (0, []) hg, if_pos hsb]
  · refine (final_flush_perm P cfg.shuffle_seed hP _).trans ?_
    simpa using buffer_fold_perm P cfg.shuffle_seed cfg.shuffle_buffer hP ys [] []

/-- C6 witness: the `limit = 5`, `shuffle_buffer = 3`, `shuffle_seed =
42` pipeline over the naturals keeps `[0, 1, 2, 3, 4]` and emits a
permutation of them, the last two through the partial flush. -/
theorem partial_flush_no_loss_instance :
    generator_with_buffer pyPerm { limit := 5, shuffle_buffer := 3, shuffle_seed := 42 }
        naturalsSource 10 (0, []) =
      some (final_flush pyPerm 42
          (([0, 1, 2, 3, 4] : List Nat).foldl (buffer_step pyPerm 42 3) ([], [])),
        (0, []), 5, false) ∧
    (final_flush pyPerm 42
        (([0, 1, 2, 3, 4] : List Nat).foldl (buffer_step pyPerm 42 3) ([], []))).Perm
      [0, 1, 2, 3, 4] :=
  partial_flush_no_loss Nat pyPerm
    { limit := 5, shuffle_buffer := 3, shuffle_seed := 42 } naturalsSource 10
    [0, 1, 2, 3, 4] 5 5 (fun n => pyPerm_perm 42 n) (by decide) (by decide)

/-- C7: every flush applies the permutation determined solely by the
seed and the buffer length — the generator is re-seeded identically at
each flush — so two flushes over equal-length buffers, in one run or
across runs, apply the identical index permutation. -/
theorem flush_same_length_same_perm :
    ∀ (α : Type) (P : Nat → Nat → List Nat) (seed : Nat) (b1 b2 : List α),
      b1.length = b2.length →
      ∃ p : List Nat, p = P seed b1.length ∧
        flush_buffer P seed b1 = applyPerm p b1 ∧
        flush_buffer P seed b2 = applyPerm p b2 := by
  intro α P seed b1 b2 h
  refine ⟨P seed b1.length, rfl, rfl, ?_⟩
  unfold flush_buffer
  rw [h]

/-- C7 witness: two distinct two-element buffers are flushed with the
one permutation attached to (seed 42, length 2). -/
theorem flush_same_length_same_perm_instance :
    ∃ p : List Nat, p = pyPerm 42 2 ∧
      flush_buffer pyPerm 42 [10, 20] = applyPerm p [10, 20] ∧
      flush_buffer pyPerm 42 [7, 8] = applyPerm p [7, 8] :=
  flush_same_length_same_perm Nat pyPerm 42 [10, 20] [7, 8] rfl

/-- C8: construction with `transforms_required = true` and an absent or
empty transforms list always fails synchronously with the configuration
error, producing no object; with `transforms_required = false` it never
fails. -/
theorem transforms_required_guard :
    (∀ (α : Type) (sb : Int) (ss : Option Nat) (off lim : Int)
        (tfs : Option (List (α → α))) (ent : Nat),
        transformsAbsent tfs = true →
        ∃ msg, datasetInit sb ss off lim tfs true ent = Except.error msg) ∧
    (∀ (α : Type) (sb : Int) (ss : Option Nat) (off lim : Int)
        (tfs : Option (List (α → α))) (ent : Nat),
        ∃ cfg : Cfg α, datasetInit sb ss off lim tfs false ent = Except.ok cfg) := by
  constructor
  · intro α sb ss off lim tfs ent h
    refine ⟨"ExtendedIterableDataset requires transforms in order to avoid bugs. Please read the comment above", ?_⟩
    unfold datasetInit
    rw [h]
    simp
  · intro α sb ss off lim tfs ent
    unfold datasetInit
    exact ⟨_, rfl⟩

/-- C8 witness: requiring transforms while supplying none fails, and the
same call with the flag off succeeds. -/
theorem transforms_required_guard_instance :
    (∃ msg, datasetInit 1 (some 7) 0 (-1) (none : Option (List (Nat → Nat))) true 0 =
      Except.error msg) ∧
    (∃ cfg : Cfg Nat, datasetInit 1 (some 7) 0 (-1)
      (none : Option (List (Nat → Nat))) false 0 = Except.ok cfg) :=
  ⟨transforms_required_guard.1 Nat 1 (some 7) 0 (-1) none 0 rfl,
    transforms_required_guard.2 Nat 1 (some 7) 0 (-1) none 0⟩

/-- C9: starting below the bound, the pending buffer stays strictly
shorter than `shuffle_buffer` after every step of the buffered loop;
and each step either only appends (while the appended buffer is still
below the bound) or, in the same step, emits the whole shuffled buffer
and clears it — never yielding from a partially flushed buffer. -/
theorem buffer_bound_atomic_flush :
    (∀ (α : Type) (P : Nat → Nat → List Nat) (seed : Nat) (sb : Int), 0 < sb →
        ∀ (ys : List α) (st : List α × List α), (st.2.length : Int) < sb →
          (((ys.foldl (buffer_step P seed sb) st).2.length : Int) < sb)) ∧
    (∀ (α : Type) (P : Nat → Nat → List Nat) (seed : Nat) (sb : Int)
        (st : List α × List α) (x : α),
        (buffer_step P seed sb st x = (st.1, st.2 ++ [x]) ∧
          ((st.2 ++ [x]).length : Int) < sb) ∨
        (buffer_step P seed sb st x =
          (st.1 ++ flush_buffer P seed (st.2 ++ [x]), []) ∧
          sb ≤ ((st.2 ++ [x]).length : Int))) := by
  constructor
  · intro α P seed sb hsb ys
    induction ys with
    | nil => intro st h; exact h
    | cons x t ih =>
      intro st h
      rw [List.foldl_cons]
      by_cases hf : sb ≤ ((st.2 ++ [x]).length : Int)
      · rw [buffer_step_flush P seed sb st x hf]
        exact ih _ (by simpa using hsb)
      · rw [buffer_step_append P seed sb st x hf]
        exact ih _ (by simpa using not_le.mp hf)
  · intro α P seed sb st x
    by_cases hf : sb ≤ ((st.2 ++ [x]).length : Int)
    · exact Or.inr ⟨buffer_step_flush P seed sb st x hf, hf⟩
    · exact Or.inl ⟨buffer_step_append P seed sb st x hf, not_le.mp hf⟩

/-- C9 witness: with bound 3 the buffer stays below 3 across five items
from the empty state. -/
theorem buffer_bound_atomic_flush_instance :
    ((((([0, 1, 2, 3, 4] : List Nat).foldl (buffer_step pyPerm 42 3)
      ([], [])).2.length : Int) < 3) : Prop) :=
  buffer_bound_atomic_flush.1 Nat pyPerm 42 3 (by decide) [0, 1, 2, 3, 4] ([], [])
    (by decide)

/-- C2 counterexample: a source failing at the third pull under
`limit = 3` propagates the failure, but the run state observed with it
is `(2, [])`, not the reset `(0, [])`; restarting from that leftover
state yields `[0]`, not the fresh-pipeline `[0, 1]`. -/
theorem source_failure_no_reset_cex :
    generator_with_buffer pyPerm { limit := 3 } failAfterTwoSource 10 (0, []) =
      some ([0, 1], (2, []), 3, true) ∧
    (2, ([] : List Nat)) ≠ (0, []) ∧
    generator_with_buffer pyPerm { limit := 3 } failAfterTwoSource 10 (2, []) =
      some ([0], (0, []), 1, false) ∧
    [0] ≠ [0, 1] := by
  refine ⟨by decide, by decide, by decide, by decide⟩

/-- C2 amended: a source failure is propagated unchanged to the
consumer, but the run state is not reset: the traversal ends holding
the counter reached at the failure and the pending unflushed buffer;
only a normally completed traversal resets the state. -/
theorem source_failure_keeps_state :
    ∀ (α : Type) (P : Nat → Nat → List Nat) (cfg : Cfg α) (source : Nat → Pull α)
      (fuel : Nat) (st : Nat × List α) (ys : List α) (c pulls : Nat),
      generator_with_conditions cfg.offset cfg.limit cfg.transforms source fuel 0 st.1 =
        some (ys, c, pulls, true) →
      (1 < cfg.shuffle_buffer →
        generator_with_buffer P cfg source fuel st =
          some ((ys.foldl (buffer_step P cfg.shuffle_seed cfg.shuffle_buffer) ([], st.2)).1,
            (c, (ys.foldl (buffer_step P cfg.shuffle_seed cfg.shuffle_buffer) ([], st.2)).2),
            pulls, true)) ∧
      (¬ 1 < cfg.shuffle_buffer →
        generator_with_buffer P cfg source fuel st = some (ys, (c, st.2), pulls, true)) := by
  intro α P cfg source fuel st ys c pulls hg
  constructor
  · intro hsb
    rw [generator_with_buffer_failed P cfg source fuel st hg, if_pos hsb]
  · intro hsb
    rw [generator_with_buffer_failed P cfg source fuel st hg, if_neg hsb]

/-- C2 amended witness: the unbuffered failing run ends with the failure
flag and counter 2. -/
theorem source_failure_keeps_state_instance :
    generator_with_buffer pyPerm { limit := 3 } failAfterTwoSource 10 (0, []) =
      some ([0, 1], (2, []), 3, true) :=
  (source_failure_keeps_state Nat pyPerm { limit := 3 } failAfterTwoSource 10 (0, [])
    [0, 1] 2 3 (by decide)).2 (by decide)

/-- C10 counterexample: with `limit = 0` and `offset = 2` over an
already exhausted source, the run terminates after one pull, not
`offset = 2` pulls. -/
theorem limit_zero_pull_count_cex :
    generator_with_buffer pyPerm { offset := 2, limit := 0 } emptySource 10 (0, []) =
      some ([], (0, []), 1, false) ∧
    (1 : Nat) ≠ 2 := by
  refine ⟨by decide, by decide⟩

/-- C10 amended: with `limit = 0` every completed traversal (from an
empty buffer) yields nothing; and when the first `offset` pulls all
produce unskipped items, the source is pulled exactly `offset` times,
each pulled item discarded by the offset filter, before the gate ends
the run.  An exhausted, failing or skip-flagging source can change the
pull count. -/
theorem limit_zero_spec :
    (∀ (α : Type) (P : Nat → Nat → List Nat) (cfg : Cfg α) (source : Nat → Pull α)
        (fuel c0 : Nat) (out : List α) (st : Nat × List α) (pulls : Nat) (fl : Bool),
        cfg.limit = 0 →
        generator_with_buffer P cfg source fuel (c0, []) = some (out, st, pulls, fl) →
        out = []) ∧
    (∀ (α : Type) (P : Nat → Nat → List Nat) (cfg : Cfg α) (source : Nat → Pull α)
        (fuel m : Nat),
        cfg.limit = 0 → cfg.offset = (m : Int) →
        (∀ k, k < m → ∃ x, source k = Pull.item false x) →
        m < fuel →
        generator_with_buffer P cfg source fuel (0, []) =
          some ([], (0, []), m, false)) := by
  constructor
  · intro α P cfg source fuel c0 out st pulls fl hlim h
    cases hg : generator_with_conditions cfg.offset cfg.limit cfg.transforms source
        fuel 0 c0 with
    | none =>
      rw [generator_with_buffer_none P cfg source fuel (c0, []) hg] at h
      exact absurd h (by simp)
    | some r =>
      obtain ⟨ys, c, p, flr⟩ := r
      have hys : ys = [] := by
        rw [hlim] at hg
        exact genConds_limit_zero_no_yield cfg.offset cfg.transforms source fuel 0 c0 hg
      subst hys
      cases flr with
      | true =>
        rw [generator_with_buffer_failed P cfg source fuel (c0, []) hg] at h
        by_cases hsb : 1 < cfg.shuffle_buffer <;>
          simp only [hsb, if_true, if_false, List.foldl_nil, Option.some.injEq,
            Prod.mk.injEq, reduceIte] at h <;>
          exact h.1.symm
      | false =>
        rw [generator_with_buffer_normal P cfg source fuel (c0, []) hg] at h
        by_cases hsb : 1 < cfg.shuffle_buffer <;>
          simp only [hsb, if_true, if_false, List.foldl_nil, Option.some.injEq,
            Prod.mk.injEq, reduceIte, final_flush, List.isEmpty_nil] at h <;>
          exact h.1.symm
  · intro α P cfg source fuel m hlim hoff hsk hfuel
    have hg : generator_with_conditions cfg.offset cfg.limit cfg.transforms source
        fuel 0 0 = some ([], 0 + m, 0 + m, false) := by
      rw [hlim]
      exact genConds_limit_zero_pulls cfg.offset cfg.transforms source m fuel 0 0
        (by rw [hoff]; simp) (fun k hk => by simpa using hsk k hk) hfuel
    rw [show (0 + m) = m by omega] at hg
    rw [generator_with_buffer_normal P cfg source fuel (0, []) hg]
    by_cases hsb : 1 < cfg.shuffle_buffer
    · rw [if_pos hsb]
      simp [final_flush]
    · rw [if_neg hsb]

/-- C10 amended witness: `offset = 2`, `limit = 0` over the naturals
yields nothing in exactly two pulls. -/
theorem limit_zero_spec_instance :
    generator_with_buffer pyPerm { offset := 2, limit := 0 } naturalsSource 10 (0, []) =
      some ([], (0, []), 2, false) :=
  limit_zero_spec.2 Nat pyPerm { offset := 2, limit := 0 } naturalsSource 10 2 rfl rfl
    (fun k _ => ⟨k, rfl⟩) (by decide)

end TorchExid

